import Mathlib

/-!
Verification development for the `ejson` extensible JSON serialization library
(`ejson/__init__.py`).

The embedding is a shallow one:

* Python runtime values that can appear on either side of the serialization
  boundary are the inductive type `PyVal`.  A custom-class instance is
  `PyVal.vobj cls rep fields` where `cls` models the instance's concrete class
  (identified, as the library does, by its `__module__` and `__name__`),
  `rep` is the string its user-defined `__repr__` produces, and `fields` are
  its attributes.
* Plain JSON trees handled by the native `json` codec are `JVal`.  The native
  text layer (`json.loads` text parsing / `json.dumps` text production) is the
  external collaborator the spec excludes from the core; the core hooks
  (`_converter` as the `default` hook of `json.dumps`, `_convert_from` as the
  `object_hook` of `json.loads`) are embedded faithfully and composed over
  trees.  A renderer (`renderJ`) models the native serializer's text output,
  including its default separators and its `sort_keys` behaviour.
* `REGISTRY` and `DESERIALIZE_REGISTRY` are association lists keyed by the
  class, with Python-`dict` assignment and lookup semantics.
* The dynamic import machinery used by `_convert_from`
  (`getattr(import_module(module), klass_name)`) is modelled by an explicit
  environment `PyEnv` listing the loadable modules and the classes found in
  them, plus the two argument-validation failures `importlib.import_module`
  raises on its own (empty module name, relative module name).
* Python exceptions escaping the library are the `PyErr` error type of an
  `Except`.  Recursion into user serializer handlers is bounded by explicit
  fuel; exhausting it is `PyErr.recursionError`, the analogue of Python's
  finite interpreter stack.
-/

/-- A concrete Python class, identified the way the library identifies it:
by its `__module__` and its `__name__`. -/
structure PyType where
  module : String
  name : String
deriving DecidableEq, Repr

/-- A JSON tree as the native `json` codec hands it around: `null`, booleans,
numbers (the development only needs integers), strings, arrays and objects.
Objects carry their key/value pairs in document order. -/
inductive JVal where
  | jnull
  | jbool (b : Bool)
  | jint (n : Int)
  | jstr (s : String)
  | jarr (elems : List JVal)
  | jobj (pairs : List (String × JVal))
deriving Repr

/-- A Python runtime value crossing the serialization boundary: the natively
representable values, plus `vobj` for an instance of a custom class.  `rep` is
the string the instance's `__repr__` returns (user-defined, hence carried as
data), `fields` its attributes. -/
inductive PyVal where
  | vnull
  | vbool (b : Bool)
  | vint (n : Int)
  | vstr (s : String)
  | vlist (elems : List PyVal)
  | vdict (pairs : List (String × PyVal))
  | vobj (cls : PyType) (rep : String) (fields : List (String × PyVal))
deriving Repr

/-- Python exceptions that can escape the library's functions. -/
inductive PyErr where
  | valueError (msg : String)
  | keyError (key : String)
  | typeError (msg : String)
  | recursionError
deriving DecidableEq, Repr

/-- Lookup in a Python `dict` keyed by strings (first matching binding; the
lists we build have unique keys, as Python dicts do). -/
def dictGet {α : Type} : List (String × α) → String → Option α
  | [], _ => none
  | (k, v) :: rest, key => if k = key then some v else dictGet rest key

/-- Python `d[k] = v` on a dict represented as an association list: replaces
the binding in place if the key exists, appends otherwise. -/
def insertKV {α : Type} : List (String × α) → String → α → List (String × α)
  | [], k, v => [(k, v)]
  | (k', v') :: rest, k, v =>
      if k' = k then (k', v) :: rest else (k', v') :: insertKV rest k v

/-- Building a Python dict from parsed key/value pairs, as the native JSON
parser does before calling `object_hook`: successive assignments, so a
duplicated key keeps its first position but its last value. -/
def pyDictOfList (pairs : List (String × PyVal)) : List (String × PyVal) :=
  pairs.foldl (fun d kv => insertKV d kv.1 kv.2) []

/-- The serializer registry `REGISTRY`: classes mapped to encode functions. -/
abbrev SerRegistry := List (PyType × (PyVal → PyVal))

/-- The deserializer registry `DESERIALIZE_REGISTRY`. -/
abbrev DeserRegistry := List (PyType × (PyVal → PyVal))

/-- Python `dict.get` on a registry (first matching binding). -/
def regGet {α : Type} : List (PyType × α) → PyType → Option α
  | [], _ => none
  | (k, v) :: rest, cls => if k = cls then some v else regGet rest cls

/-- Python `d[k] = v` keyed by classes. -/
def regPut {α : Type} : List (PyType × α) → PyType → α → List (PyType × α)
  | [], cls, f => [(cls, f)]
  | (k, v) :: rest, cls, f =>
      if k = cls then (k, f) :: rest else (k, v) :: regPut rest cls f

/-- The effect of `register_serializer(klass)` applied (as a decorator) to
`fun`: `REGISTRY[klass] = fun`.  The decorator returns `fun` unchanged, which
has no observable effect on the registry and is not modelled separately. -/
def register_serializer (reg : SerRegistry) (cls : PyType) (f : PyVal → PyVal) :
    SerRegistry :=
  regPut reg cls f

/-- The effect of `register_deserializer(klass)` applied to `fun`:
`DESERIALIZE_REGISTRY[klass] = fun`. -/
def register_deserializer (reg : DeserRegistry) (cls : PyType)
    (f : PyVal → PyVal) : DeserRegistry :=
  regPut reg cls f

/-- The state of the serializer registry after `cleanup_registry()`:
`REGISTRY.clear()` empties the mapping. -/
def cleanup_registry (_reg : SerRegistry) : SerRegistry := []

/-- The state of the deserializer registry after
`cleanup_deserialization_registry()`. -/
def cleanup_deserialization_registry (_reg : DeserRegistry) : DeserRegistry := []

/-- A loadable module, as the resolver sees it: its class-valued attributes.
(Attributes that are not classes are not modelled; every name the environment
resolves stands for a class.) -/
abbrev PyModule := List (String × PyType)

/-- The import system: which module names `import_module` can load, and what
each loaded module's attributes are. -/
abbrev PyEnv := List (String × PyModule)

/-- Python `s.rsplit('.', 1)` restricted to the two shapes `_convert_from`
distinguishes: `some (before, after)` splits at the last `'.'`;
`none` means the string contains no `'.'`, in which case the two-variable
unpacking in `_convert_from` raises `ValueError`. -/
def rsplitDot (s : String) : Option (String × String) :=
  let r := s.data.reverse
  match r.dropWhile (fun c => !(c = '.')) with
  | [] => none
  | _ :: before =>
      some (⟨before.reverse⟩, ⟨(r.takeWhile (fun c => !(c = '.'))).reverse⟩)

/-- Whether a module-name string begins with `'.'` (a relative import, which
`importlib.import_module` rejects with `TypeError` when no package is given). -/
def startsWithDot (s : String) : Bool :=
  match s.data with
  | '.' :: _ => true
  | _ => false

/-- Outcome of mapping a `__class__` identifier string back to a class, i.e.
of `module, klass_name = s.rsplit('.', 1)` followed by
`getattr(import_module(module), klass_name)`.  `raised` carries the
exceptions of this path that the surrounding `except (ImportError,
AttributeError, KeyError)` clause does NOT catch; `unresolved` covers the
caught `ImportError` (module not loadable) and `AttributeError` (name not
found in the loaded module). -/
inductive ResOutcome where
  | raised (e : PyErr)
  | unresolved
  | resolved (cls : PyType)
deriving DecidableEq, Repr

/-- The identifier-resolution step of `_convert_from` on a string identifier. -/
def resolveIdent (env : PyEnv) (s : String) : ResOutcome :=
  match rsplitDot s with
  | none =>
      ResOutcome.raised (PyErr.valueError
        "not enough values to unpack (expected 2, got 1)")
  | some (m, n) =>
      if startsWithDot m then
        ResOutcome.raised (PyErr.typeError
          ("the 'package' argument is required to perform a relative import for '"
            ++ m ++ "'"))
      else if m = "" then
        ResOutcome.raised (PyErr.valueError "Empty module name")
      else
        match dictGet env m with
        | none => ResOutcome.unresolved
        | some md =>
            match dictGet md n with
            | none => ResOutcome.unresolved
            | some cls => ResOutcome.resolved cls

/-- The `deserialize(klass, data)` helper: applies the registered handler, or
raises `TypeError("There is no deserializer registered to handle instances of
'<klass.__name__>'")`. -/
def deserialize (dreg : DeserRegistry) (cls : PyType) (data : PyVal) :
    Except PyErr PyVal :=
  match regGet dreg cls with
  | some handler => Except.ok (handler data)
  | none => Except.error (PyErr.typeError
      ("There is no deserializer registered to handle instances of '"
        ++ cls.name ++ "'"))

/-- The `_convert_from(data)` object hook.  The `try` block covers only the
`__class__` lookup, the `rsplit` and the import/getattr; its `except` clause
catches exactly `ImportError`, `AttributeError` and `KeyError` and returns
`data` unchanged.  The `__value__` lookup and the `deserialize` call sit
outside the `try`, so their `KeyError`/`TypeError` escape, as does the
`ValueError` of a separator-less identifier. -/
def convert_from (env : PyEnv) (dreg : DeserRegistry)
    (data : List (String × PyVal)) : Except PyErr PyVal :=
  match dictGet data "__class__" with
  | none => Except.ok (PyVal.vdict data)
  | some (PyVal.vstr s) =>
      match resolveIdent env s with
      | ResOutcome.raised e => Except.error e
      | ResOutcome.unresolved => Except.ok (PyVal.vdict data)
      | ResOutcome.resolved cls =>
          match dictGet data "__value__" with
          | none => Except.error (PyErr.keyError "__value__")
          | some payload => deserialize dreg cls payload
  | some _ => Except.ok (PyVal.vdict data)

/-- Mapping an `Except`-returning function over a list, failing fast: the
shape in which the native codec walks arrays during both encode and decode. -/
def exceptMapList {α β : Type} (f : α → Except PyErr β) :
    List α → Except PyErr (List β)
  | [] => Except.ok []
  | x :: xs => do Except.ok ((← f x) :: (← exceptMapList f xs))

/-- Mapping an `Except`-returning function over the values of key/value
pairs, failing fast: how the native codec walks objects. -/
def exceptMapPairs {α β : Type} (f : α → Except PyErr β) :
    List (String × α) → Except PyErr (List (String × β))
  | [] => Except.ok []
  | (k, v) :: rest =>
      do Except.ok ((k, ← f v) :: (← exceptMapPairs f rest))

/-- The type identifier `_converter` writes into the envelope:
`'{}.{}'.format(data.__class__.__module__, data.__class__.__name__)`. -/
def fullName (cls : PyType) : String := cls.module ++ "." ++ cls.name

/-- The conversion pipeline of `json.dumps(data, default=_converter)` seen at
tree level: native values pass through, and every value the native codec
cannot represent (here: a class instance) goes through the `_converter` hook,
which looks up `REGISTRY` by the value's concrete class and either wraps the
handler's output in the two-key envelope (recursing over it, since the payload
may again contain non-native values) or raises
`TypeError(repr(data) + " is not JSON serializable")`.  `fuel` bounds the
recursion through user handlers, whose output the embedding cannot measure;
running out of it is the analogue of exhausting Python's interpreter stack. -/
def dumps_tree (sreg : SerRegistry) : Nat → PyVal → Except PyErr JVal
  | _, PyVal.vnull => Except.ok JVal.jnull
  | _, PyVal.vbool b => Except.ok (JVal.jbool b)
  | _, PyVal.vint n => Except.ok (JVal.jint n)
  | _, PyVal.vstr s => Except.ok (JVal.jstr s)
  | 0, PyVal.vlist _ => Except.error PyErr.recursionError
  | 0, PyVal.vdict _ => Except.error PyErr.recursionError
  | 0, PyVal.vobj cls rep _ =>
      match regGet sreg cls with
      | none => Except.error (PyErr.typeError (rep ++ " is not JSON serializable"))
      | some _ => Except.error PyErr.recursionError
  | fuel + 1, PyVal.vlist elems =>
      do Except.ok (JVal.jarr (← exceptMapList (dumps_tree sreg fuel) elems))
  | fuel + 1, PyVal.vdict pairs =>
      do Except.ok (JVal.jobj (← exceptMapPairs (dumps_tree sreg fuel) pairs))
  | fuel + 1, PyVal.vobj cls rep fields =>
      match regGet sreg cls with
      | none => Except.error (PyErr.typeError (rep ++ " is not JSON serializable"))
      | some handler =>
          do Except.ok (JVal.jobj
            [("__class__", JVal.jstr (fullName cls)),
             ("__value__", ← dumps_tree sreg fuel (handler (PyVal.vobj cls rep fields)))])

mutual

/-- The conversion pipeline of `json.loads(data, object_hook=_convert_from)`
seen at tree level: the parsed tree is walked bottom-up, and every object —
innermost first, with its member values already converted — is turned into a
Python dict and passed through the `_convert_from` hook. -/
def loads_tree (env : PyEnv) (dreg : DeserRegistry) : JVal → Except PyErr PyVal
  | JVal.jnull => Except.ok PyVal.vnull
  | JVal.jbool b => Except.ok (PyVal.vbool b)
  | JVal.jint n => Except.ok (PyVal.vint n)
  | JVal.jstr s => Except.ok (PyVal.vstr s)
  | JVal.jarr elems => do Except.ok (PyVal.vlist (← loads_elems env dreg elems))
  | JVal.jobj pairs =>
      do convert_from env dreg (pyDictOfList (← loads_pairs env dreg pairs))

/-- Bottom-up conversion of the elements of a parsed array. -/
def loads_elems (env : PyEnv) (dreg : DeserRegistry) :
    List JVal → Except PyErr (List PyVal)
  | [] => Except.ok []
  | x :: xs =>
      do Except.ok ((← loads_tree env dreg x) :: (← loads_elems env dreg xs))

/-- Bottom-up conversion of the member values of a parsed object. -/
def loads_pairs (env : PyEnv) (dreg : DeserRegistry) :
    List (String × JVal) → Except PyErr (List (String × PyVal))
  | [] => Except.ok []
  | (k, v) :: rest =>
      do Except.ok ((k, ← loads_tree env dreg v) :: (← loads_pairs env dreg rest))

end

/-- Strict lexicographic order on character lists by code point: how Python
compares strings when `sort_keys` sorts a dict's keys. -/
def lexLt : List Char → List Char → Bool
  | [], [] => false
  | [], _ :: _ => true
  | _ :: _, [] => false
  | a :: as, b :: bs =>
      if a.toNat < b.toNat then true
      else if b.toNat < a.toNat then false
      else lexLt as bs

/-- Insertion step of the key sort applied to already-rendered members. -/
def insertByKey (kv : String × String) :
    List (String × String) → List (String × String)
  | [] => [kv]
  | kv' :: rest =>
      if lexLt kv.1.data kv'.1.data then kv :: kv' :: rest
      else kv' :: insertByKey kv rest

/-- Sorting an object's rendered members by key, as `sort_keys=True` does. -/
def sortByKey : List (String × String) → List (String × String)
  | [] => []
  | kv :: rest => insertByKey kv (sortByKey rest)

/-- One hexadecimal digit, lowercase, as `json.dumps` writes escapes. -/
def hexDigit (n : Nat) : Char :=
  if n < 10 then Char.ofNat (48 + n) else Char.ofNat (87 + n)

/-- Four-digit lowercase hexadecimal, the `XXXX` of a `\uXXXX` escape. -/
def hex4 (n : Nat) : String :=
  ⟨[hexDigit (n / 4096 % 16), hexDigit (n / 256 % 16),
    hexDigit (n / 16 % 16), hexDigit (n % 16)]⟩

/-- How the native serializer (default `ensure_ascii=True`) writes one
character of a JSON string: `"` and `\` are backslash-escaped, the five
control characters with shorthands use them, every other character outside
printable ASCII becomes `\uXXXX` (a surrogate pair beyond the BMP), and
printable ASCII passes through. -/
def jsonEscapeChar (c : Char) : String :=
  if c = '"' then "\\\""
  else if c = '\\' then "\\\\"
  else if c = '\x08' then "\\b"
  else if c = '\t' then "\\t"
  else if c = '\n' then "\\n"
  else if c = '\x0c' then "\\f"
  else if c = '\r' then "\\r"
  else if 0x20 ≤ c.toNat ∧ c.toNat ≤ 0x7e then String.singleton c
  else if c.toNat < 0x10000 then "\\u" ++ hex4 c.toNat
  else
    "\\u" ++ hex4 (0xd800 + (c.toNat - 0x10000) / 1024) ++
    "\\u" ++ hex4 (0xdc00 + (c.toNat - 0x10000) % 1024)

/-- A JSON string literal as the native serializer writes it. -/
def jsonEscape (s : String) : String :=
  "\"" ++ String.join (s.data.map jsonEscapeChar) ++ "\""

mutual

/-- Text production of the native `json.dumps` on an already-converted tree,
with its default separators `", "` and `": "` and, when `sortKeys` is set,
each object's members ordered by key.  (Sorting the rendered members by key
equals the serializer's sort-then-render, since rendering keeps keys.) -/
def renderJ (sortKeys : Bool) : JVal → String
  | JVal.jnull => "null"
  | JVal.jbool true => "true"
  | JVal.jbool false => "false"
  | JVal.jint n => toString n
  | JVal.jstr s => jsonEscape s
  | JVal.jarr elems => "[" ++ ", ".intercalate (renderArr sortKeys elems) ++ "]"
  | JVal.jobj pairs =>
      let rendered := renderObj sortKeys pairs
      let ps := if sortKeys then sortByKey rendered else rendered
      "\x7b" ++
        ", ".intercalate (ps.map (fun kv => jsonEscape kv.1 ++ ": " ++ kv.2)) ++
        "\x7d"

/-- Rendering of an array's elements. -/
def renderArr (sortKeys : Bool) : List JVal → List String
  | [] => []
  | x :: xs => renderJ sortKeys x :: renderArr sortKeys xs

/-- Rendering of an object's member values (keys kept for sorting). -/
def renderObj (sortKeys : Bool) : List (String × JVal) → List (String × String)
  | [] => []
  | (k, v) :: rest => (k, renderJ sortKeys v) :: renderObj sortKeys rest

end

/-- The `escape=True` post-processing of `dumps`: `cgi.escape`, which
replaces `&`, then `<`, then `>` by their HTML entities (the sequential
replacements equal this one-pass map, since no replacement output contains a
character a later replacement touches in the original). -/
def cgi_escape (s : String) : String :=
  String.join (s.data.map fun c =>
    if c = '&' then "&amp;"
    else if c = '<' then "&lt;"
    else if c = '>' then "&gt;"
    else String.singleton c)

/-- The library's `dumps(data, escape=..., **kwargs)` down to text: inserts
`sort_keys=True` into the keyword arguments when the caller supplied none
(`sortKeysArg = none`), converts through `dumps_tree`, renders, and applies
the HTML escaping filter when `escape` is set. -/
def dumps_string (sreg : SerRegistry) (fuel : Nat) (sortKeysArg : Option Bool)
    (escape : Bool) (v : PyVal) : Except PyErr String :=
  let sk := sortKeysArg.getD true
  match dumps_tree sreg fuel v with
  | Except.error e => Except.error e
  | Except.ok j =>
      let out := renderJ sk j
      Except.ok (if escape then cgi_escape out else out)

/-- Whether the character list `pat` occurs contiguously inside `s`: the
notion of a diagnostic message "carrying" a name. -/
def startsSeq : List Char → List Char → Bool
  | [], _ => true
  | _ :: _, [] => false
  | a :: as, b :: bs => a = b && startsSeq as bs

/-- Substring occurrence test used to state what an error message carries. -/
def containsSeq (pat : List Char) : List Char → Bool
  | [] => pat.isEmpty
  | c :: rest => startsSeq pat (c :: rest) || containsSeq pat rest

/-- The `Point` class of the spec's examples: `pkg.Point`. -/
def PointT : PyType := PyType.mk "pkg" "Point"

/-- An import environment in which the module `pkg` is loadable and its
attribute `Point` is the `Point` class. -/
def env0 : PyEnv := [("pkg", [("Point", PointT)])]

/-- A registered encode function for `Point`: returns the instance's
attribute dict, as the spec's example serializer does. -/
def serialize_point : PyVal → PyVal
  | PyVal.vobj _ _ fields => PyVal.vdict fields
  | v => v

/-- What `repr(Point(1, 2))` prints. -/
def point_rep : String := "Point(1, 2)"

/-- A registered decode function for `Point`: rebuilds the instance from the
attribute dict. -/
def deserialize_point : PyVal → PyVal
  | PyVal.vdict fields => PyVal.vobj PointT point_rep fields
  | v => v

/-- The instance `Point(1, 2)`, its attributes stored in insertion order
`y` before `x` so that the key sorting of `dumps` is observable. -/
def point12 : PyVal :=
  PyVal.vobj PointT point_rep [("y", PyVal.vint 2), ("x", PyVal.vint 1)]

/-- A serializer registry holding only the `Point` encode function. -/
def sregPoint : SerRegistry := [(PointT, serialize_point)]

/-- A deserializer registry holding only the `Point` decode function. -/
def dregPoint : DeserRegistry := [(PointT, deserialize_point)]

/-- Whether a Python value is a string (the only values with an `rsplit`
attribute among those `_convert_from` can see). -/
def isVStr : PyVal → Bool
  | PyVal.vstr _ => true
  | _ => false

/-- Condition on the raw `__class__` member of a parsed object under which
the `_convert_from` hook is guaranteed not to raise: the member is absent, or
it is a string identifier the resolver folds into the caught
`ImportError`/`AttributeError` outcome, or it is a value that still is not a
string after bottom-up conversion (anything but a nested object, whose
conversion could produce an arbitrary instance). -/
def ClassKeyOK (env : PyEnv) : Option JVal → Prop
  | none => True
  | some (JVal.jstr s) => resolveIdent env s = ResOutcome.unresolved
  | some (JVal.jobj _) => False
  | some _ => True

/-- Parsed JSON documents on which decoding is raise-free: every object has
pairwise-distinct keys and a `__class__` member satisfying `ClassKeyOK`.
(Foreign or malformed envelopes with an unresolvable identifier are allowed;
identifiers that resolve, or that make the resolution path itself raise, are
not.) -/
inductive Benign (env : PyEnv) : JVal → Prop where
  | null : Benign env JVal.jnull
  | bool (b : Bool) : Benign env (JVal.jbool b)
  | int (n : Int) : Benign env (JVal.jint n)
  | str (s : String) : Benign env (JVal.jstr s)
  | arr {elems : List JVal} :
      (∀ x ∈ elems, Benign env x) → Benign env (JVal.jarr elems)
  | obj {pairs : List (String × JVal)} :
      (pairs.map Prod.fst).Nodup →
      ClassKeyOK env (dictGet pairs "__class__") →
      (∀ kv ∈ pairs, Benign env kv.2) →
      Benign env (JVal.jobj pairs)

/-- Values that encode and then decode back to themselves: natively
representable trees whose dicts have pairwise-distinct keys and stay clear of
the reserved `__class__` key, and instances of classes that have both an
encode and a decode function registered, mutually inverse on the instance,
whose identifier resolves back to the class, and whose encoded payload is in
turn of this shape. -/
inductive Safe (env : PyEnv) (sreg : SerRegistry) (dreg : DeserRegistry) :
    PyVal → Prop where
  | null : Safe env sreg dreg PyVal.vnull
  | bool (b : Bool) : Safe env sreg dreg (PyVal.vbool b)
  | int (n : Int) : Safe env sreg dreg (PyVal.vint n)
  | str (s : String) : Safe env sreg dreg (PyVal.vstr s)
  | list {elems : List PyVal} :
      (∀ x ∈ elems, Safe env sreg dreg x) → Safe env sreg dreg (PyVal.vlist elems)
  | dict {pairs : List (String × PyVal)} :
      (pairs.map Prod.fst).Nodup →
      dictGet pairs "__class__" = none →
      (∀ kv ∈ pairs, Safe env sreg dreg kv.2) →
      Safe env sreg dreg (PyVal.vdict pairs)
  | obj {cls : PyType} {rep : String} {fields : List (String × PyVal)}
      {handler decoder : PyVal → PyVal} :
      regGet sreg cls = some handler →
      regGet dreg cls = some decoder →
      resolveIdent env (fullName cls) = ResOutcome.resolved cls →
      Safe env sreg dreg (handler (PyVal.vobj cls rep fields)) →
      decoder (handler (PyVal.vobj cls rep fields)) = PyVal.vobj cls rep fields →
      Safe env sreg dreg (PyVal.vobj cls rep fields)

section SanityChecks

example : resolveIdent env0 "pkg.Point" = ResOutcome.resolved PointT := rfl

example :
    dumps_string sregPoint 3 none false point12 =
      Except.ok
        "\x7b\"__class__\": \"pkg.Point\", \"__value__\": \x7b\"x\": 1, \"y\": 2\x7d\x7d" := by
  simp only [dumps_string, dumps_tree, renderJ, renderArr, renderObj]
  rfl

example : rsplitDot "pkg.sub.Point" = some ("pkg.sub", "Point") := by decide
example : rsplitDot "nodots" = none := by decide
example : rsplitDot ".Point" = some ("", "Point") := by decide
example : rsplitDot "" = none := by decide

example :
    loads_tree [] [] (JVal.jobj [("a", JVal.jint 1)]) =
      Except.ok (PyVal.vdict [("a", PyVal.vint 1)]) := by
  simp only [loads_tree, loads_pairs]
  rfl

example :
    dumps_tree [] 5 (PyVal.vdict [("a", PyVal.vint 1)]) =
      Except.ok (JVal.jobj [("a", JVal.jint 1)]) := rfl

end SanityChecks

/-- Looking a key up right after a `dict` assignment to it yields the newly
assigned value, whatever was registered before. -/
theorem regGet_regPut_self {α : Type} (reg : List (PyType × α)) (cls : PyType)
    (f : α) : regGet (regPut reg cls f) cls = some f := by
  induction reg with
  | nil => simp [regPut, regGet]
  | cons kv rest ih =>
      by_cases h : kv.1 = cls
      · simp [regPut, regGet, h]
      · simp [regPut, regGet, h, ih]

/-- C9: after the serializer registry is cleared, lookup of every previously
registered class is absent; and registering two encode functions for the same
class leaves only the second in effect, silently overwriting the first. -/
theorem C9_registry_isolation :
    (∀ (reg : SerRegistry) (cls : PyType), regGet (cleanup_registry reg) cls = none) ∧
    (∀ (reg : SerRegistry) (cls : PyType) (f g : PyVal → PyVal),
      regGet (register_serializer (register_serializer reg cls f) cls g) cls = some g) := by
  constructor
  · intro reg cls
    rfl
  · intro reg cls f g
    simp [register_serializer, regGet_regPut_self]

/-- C10: when a decoded object's `__class__` member is any non-string value,
the hook returns the object unchanged and raises nothing — the
`AttributeError` of calling `rsplit` on a non-string is one of the caught
exceptions. -/
theorem C10_nonstring_class_passthrough (env : PyEnv) (dreg : DeserRegistry)
    (kvs : List (String × PyVal)) (v : PyVal)
    (h1 : dictGet kvs "__class__" = some v) (h2 : isVStr v = false) :
    convert_from env dreg kvs = Except.ok (PyVal.vdict kvs) := by
  unfold convert_from
  rw [h1]
  cases v <;> simp_all [isVStr]

/-- Witness for C10 at a concrete object whose `__class__` is a number. -/
theorem C10_witness :
    convert_from env0 [] [("__class__", PyVal.vint 3)] =
      Except.ok (PyVal.vdict [("__class__", PyVal.vint 3)]) :=
  C10_nonstring_class_passthrough env0 [] _ (PyVal.vint 3) rfl rfl

/-- C8 counterexample to "deserialize is the only core operation that raises
for a missing handler": the automatic decode path propagates the very same
no-deserializer `TypeError` when an envelope's identifier resolves but the
deserializer registry is empty. -/
theorem C8_counterexample :
    loads_tree env0 []
      (JVal.jobj [("__class__", JVal.jstr "pkg.Point"), ("__value__", JVal.jint 1)]) =
      Except.error (PyErr.typeError
        "There is no deserializer registered to handle instances of 'Point'") := by
  simp only [loads_tree, loads_pairs]
  rfl

/-- C8 (amended): `deserialize(type, data)` applies the registered decode
function when one is present and raises the no-deserializer `TypeError`
carrying the class's display name exactly when none is; but it is not the
only raising operation, since the automatic decode path propagates the same
error (see the counterexample) and encode raises for a missing serializer. -/
theorem C8_deserialize_dispatch (dreg : DeserRegistry) (cls : PyType)
    (data : PyVal) :
    (∀ handler, regGet dreg cls = some handler →
      deserialize dreg cls data = Except.ok (handler data)) ∧
    (regGet dreg cls = none →
      deserialize dreg cls data = Except.error (PyErr.typeError
        ("There is no deserializer registered to handle instances of '"
          ++ cls.name ++ "'"))) := by
  constructor
  · intro handler h
    simp [deserialize, h]
  · intro h
    simp [deserialize, h]

/-- Witness for C8 at a registry containing `Point` and at an empty one. -/
theorem C8_witness :
    deserialize dregPoint PointT (PyVal.vdict [("x", PyVal.vint 1)]) =
        Except.ok (PyVal.vobj PointT point_rep [("x", PyVal.vint 1)]) ∧
    deserialize [] PointT PyVal.vnull = Except.error (PyErr.typeError
        "There is no deserializer registered to handle instances of 'Point'") :=
  ⟨(C8_deserialize_dispatch dregPoint PointT _).1 deserialize_point rfl,
   (C8_deserialize_dispatch [] PointT PyVal.vnull).2 rfl⟩

/-- C1 counterexample: an envelope whose identifier resolves to `Point` while
no deserializer is registered makes the decode hook raise the
no-deserializer `TypeError` instead of returning the raw `__value__`. -/
theorem C1_counterexample :
    convert_from env0 []
      [("__class__", PyVal.vstr "pkg.Point"),
       ("__value__", PyVal.vdict [("x", PyVal.vint 1), ("y", PyVal.vint 2)])] =
      Except.error (PyErr.typeError
        "There is no deserializer registered to handle instances of 'Point'") := rfl

/-- C1 (amended): whenever a decoded object's identifier resolves to a
concrete class with no entry in the deserializer registry, the automatic
decode path raises the no-deserializer `TypeError` propagated from
`deserialize` — it does not return the raw `__value__` payload. -/
theorem C1_resolved_without_handler_raises (env : PyEnv) (dreg : DeserRegistry)
    (kvs : List (String × PyVal)) (s : String) (cls : PyType) (payload : PyVal)
    (h1 : dictGet kvs "__class__" = some (PyVal.vstr s))
    (h2 : resolveIdent env s = ResOutcome.resolved cls)
    (h3 : dictGet kvs "__value__" = some payload)
    (h4 : regGet dreg cls = none) :
    convert_from env dreg kvs = Except.error (PyErr.typeError
      ("There is no deserializer registered to handle instances of '"
        ++ cls.name ++ "'")) := by
  unfold convert_from
  simp only [h1, h2, h3]
  simp [deserialize, h4]

/-- Witness for C1 at the envelope of the spec's Example 3, empty registry. -/
theorem C1_witness :
    convert_from env0 []
      [("__class__", PyVal.vstr "pkg.Point"), ("__value__", PyVal.vint 7)] =
      Except.error (PyErr.typeError
        "There is no deserializer registered to handle instances of 'Point'") :=
  C1_resolved_without_handler_raises env0 [] _ "pkg.Point" PointT (PyVal.vint 7)
    rfl rfl rfl rfl

/-- C3 counterexample: an object carrying `__class__`, `__value__` AND a
third key is still reconstructed (the hook never counts keys), contradicting
"never treated as an envelope". -/
theorem C3_counterexample :
    convert_from env0 dregPoint
      [("__class__", PyVal.vstr "pkg.Point"),
       ("__value__", PyVal.vdict [("x", PyVal.vint 1)]),
       ("extra", PyVal.vint 7)] =
      Except.ok (PyVal.vobj PointT point_rep [("x", PyVal.vint 1)]) ∧
    (Except.ok (PyVal.vobj PointT point_rep [("x", PyVal.vint 1)]) : Except PyErr PyVal) ≠
      Except.ok (PyVal.vdict
        [("__class__", PyVal.vstr "pkg.Point"),
         ("__value__", PyVal.vdict [("x", PyVal.vint 1)]),
         ("extra", PyVal.vint 7)]) := by
  constructor
  · rfl
  · simp

/-- C3 (amended): envelope recognition checks only that `__class__` resolves
and that `__value__` is present; extra keys neither disqualify the object nor
survive — the reconstructed instance replaces the whole object. -/
theorem C3_envelope_ignores_extra_keys (env : PyEnv) (dreg : DeserRegistry)
    (kvs : List (String × PyVal)) (s : String) (cls : PyType) (payload : PyVal)
    (handler : PyVal → PyVal)
    (h1 : dictGet kvs "__class__" = some (PyVal.vstr s))
    (h2 : resolveIdent env s = ResOutcome.resolved cls)
    (h3 : dictGet kvs "__value__" = some payload)
    (h4 : regGet dreg cls = some handler) :
    convert_from env dreg kvs = Except.ok (handler payload) := by
  unfold convert_from
  simp only [h1, h2, h3]
  simp [deserialize, h4]

/-- Witness for C3 at a three-key object. -/
theorem C3_witness :
    convert_from env0 dregPoint
      [("__class__", PyVal.vstr "pkg.Point"),
       ("__value__", PyVal.vdict [("y", PyVal.vint 5)]),
       ("third", PyVal.vnull)] =
      Except.ok (PyVal.vobj PointT point_rep [("y", PyVal.vint 5)]) :=
  C3_envelope_ignores_extra_keys env0 dregPoint _ "pkg.Point" PointT
    (PyVal.vdict [("y", PyVal.vint 5)]) deserialize_point rfl rfl rfl rfl

/-- C4 counterexample: an identifier string with no separator is one of the
claim's "malformed" cases, yet the hook raises `ValueError` (the two-variable
unpacking of `rsplit`'s one-element result) instead of returning the object
unchanged. -/
theorem C4_counterexample :
    convert_from env0 []
      [("__class__", PyVal.vstr "Point"), ("__value__", PyVal.vint 1)] =
      Except.error (PyErr.valueError
        "not enough values to unpack (expected 2, got 1)") := rfl

/-- C4 (amended): a missing `__class__` key, a non-loadable namespace and a
name not found in a loaded namespace all make the decoder return the object
unchanged; but a separator-less identifier is NOT folded into this outcome —
it raises `ValueError` (and an empty or relative namespace part likewise
raises). -/
theorem C4_unresolved_passthrough (env : PyEnv) (dreg : DeserRegistry)
    (kvs : List (String × PyVal)) :
    (dictGet kvs "__class__" = none →
      convert_from env dreg kvs = Except.ok (PyVal.vdict kvs)) ∧
    (∀ s, dictGet kvs "__class__" = some (PyVal.vstr s) →
      resolveIdent env s = ResOutcome.unresolved →
      convert_from env dreg kvs = Except.ok (PyVal.vdict kvs)) := by
  constructor
  · intro h
    unfold convert_from
    rw [h]
  · intro s h1 h2
    unfold convert_from
    simp only [h1, h2]

/-- Witness for C4: an object with no `__class__` key, and one whose
identifier names an attribute absent from a loadable module. -/
theorem C4_witness :
    convert_from env0 [] [("name", PyVal.vstr "A")] =
        Except.ok (PyVal.vdict [("name", PyVal.vstr "A")]) ∧
    convert_from env0 [] [("__class__", PyVal.vstr "pkg.Missing")] =
        Except.ok (PyVal.vdict [("__class__", PyVal.vstr "pkg.Missing")]) :=
  ⟨(C4_unresolved_passthrough env0 [] _).1 rfl,
   (C4_unresolved_passthrough env0 [] _).2 "pkg.Missing" rfl rfl⟩

/-- C5 counterexample: for an unregistered instance whose `__repr__` returns
`"blob"`, encode raises `TypeError("blob is not JSON serializable")` — a
message built from `repr(data)` that does not carry the type's display name
`Point` at all. -/
theorem C5_counterexample :
    dumps_tree [] 1 (PyVal.vobj PointT "blob" []) =
      Except.error (PyErr.typeError "blob is not JSON serializable") ∧
    containsSeq "Point".data "blob is not JSON serializable".data = false := by
  constructor
  · rfl
  · rfl

/-- C5 (amended): a value whose concrete class has no registered serializer
makes encode fail, fatally for the call, with
`TypeError(repr(value) + " is not JSON serializable")` — the message carries
the value's `repr`, not necessarily the type's display name. -/
theorem C5_unsupported_type_raises (sreg : SerRegistry) (fuel : Nat)
    (sortKeysArg : Option Bool) (escape : Bool) (cls : PyType) (rep : String)
    (fields : List (String × PyVal)) (h : regGet sreg cls = none) :
    dumps_tree sreg fuel (PyVal.vobj cls rep fields) =
      Except.error (PyErr.typeError (rep ++ " is not JSON serializable")) ∧
    dumps_string sreg fuel sortKeysArg escape (PyVal.vobj cls rep fields) =
      Except.error (PyErr.typeError (rep ++ " is not JSON serializable")) := by
  have hd : dumps_tree sreg fuel (PyVal.vobj cls rep fields) =
      Except.error (PyErr.typeError (rep ++ " is not JSON serializable")) := by
    cases fuel <;> simp [dumps_tree, h]
  exact ⟨hd, by simp [dumps_string, hd]⟩

/-- Witness for C5 at the `Point` instance with an empty registry. -/
theorem C5_witness :
    dumps_string [] 9 none false point12 =
      Except.error (PyErr.typeError "Point(1, 2) is not JSON serializable") :=
  (C5_unsupported_type_raises [] 9 none false PointT point_rep
    [("y", PyVal.vint 2), ("x", PyVal.vint 1)] rfl).2

/-- C7: a value whose concrete class has a registered serializer encodes to
the envelope whose `__class__` is the class's module and name joined by `'.'`
and whose `__value__` is the handler's (recursively converted) output; and
with key sorting on by default, the serialized text of the registered
`Point(1, 2)` — attributes stored `y` first — has its keys in sorted order. -/
theorem C7_encode_envelope :
    (∀ (sreg : SerRegistry) (fuel : Nat) (cls : PyType) (rep : String)
        (fields : List (String × PyVal)) (handler : PyVal → PyVal) (payload : JVal),
      regGet sreg cls = some handler →
      dumps_tree sreg fuel (handler (PyVal.vobj cls rep fields)) = Except.ok payload →
      dumps_tree sreg (fuel + 1) (PyVal.vobj cls rep fields) =
        Except.ok (JVal.jobj
          [("__class__", JVal.jstr (cls.module ++ "." ++ cls.name)),
           ("__value__", payload)])) ∧
    dumps_string sregPoint 2 none false point12 =
      Except.ok
        "\x7b\"__class__\": \"pkg.Point\", \"__value__\": \x7b\"x\": 1, \"y\": 2\x7d\x7d" := by
  constructor
  · intro sreg fuel cls rep fields handler payload h1 h2
    simp [dumps_tree, fullName, h1, h2]
    rfl
  · simp only [dumps_string, dumps_tree, renderJ, renderArr, renderObj]
    rfl

/-- Witness for C7: the `Point(1, 2)` instance, tree level. -/
theorem C7_witness :
    dumps_tree sregPoint 2 point12 =
      Except.ok (JVal.jobj
        [("__class__", JVal.jstr "pkg.Point"),
         ("__value__", JVal.jobj [("y", JVal.jint 2), ("x", JVal.jint 1)])]) :=
  C7_encode_envelope.1 sregPoint 1 PointT point_rep
    [("y", PyVal.vint 2), ("x", PyVal.vint 1)] serialize_point
    (JVal.jobj [("y", JVal.jint 2), ("x", JVal.jint 1)]) rfl rfl

/-- Inversion of a successful `Except` bind. -/
theorem bind_ok_iff {α β : Type} (x : Except PyErr α) (f : α → Except PyErr β)
    (b : β) :
    (x >>= f) = Except.ok b ↔ ∃ a, x = Except.ok a ∧ f a = Except.ok b := by
  cases x <;> simp [Bind.bind, Except.bind]

/-- If every element of a parsed array converts, the array converts. -/
theorem loads_elems_ok (env : PyEnv) (dreg : DeserRegistry) (elems : List JVal)
    (h : ∀ x ∈ elems, ∃ v, loads_tree env dreg x = Except.ok v) :
    ∃ vs, loads_elems env dreg elems = Except.ok vs := by
  induction elems with
  | nil => exact ⟨[], rfl⟩
  | cons x xs ih =>
      obtain ⟨v, hv⟩ := h x (by simp)
      obtain ⟨vs, hvs⟩ := ih (fun y hy => h y (by simp [hy]))
      refine ⟨v :: vs, ?_⟩
      simp only [loads_elems, hv, hvs]
      rfl

/-- If every member value of a parsed object converts, the member list
converts, keeping the keys. -/
theorem loads_pairs_ok (env : PyEnv) (dreg : DeserRegistry)
    (pairs : List (String × JVal))
    (h : ∀ kv ∈ pairs, ∃ v, loads_tree env dreg kv.2 = Except.ok v) :
    ∃ cps, loads_pairs env dreg pairs = Except.ok cps ∧
      cps.map Prod.fst = pairs.map Prod.fst := by
  induction pairs with
  | nil => exact ⟨[], rfl, rfl⟩
  | cons kv rest ih =>
      obtain ⟨k, jv⟩ := kv
      obtain ⟨v, hv⟩ := h (k, jv) (by simp)
      obtain ⟨cps, hcps, hkeys⟩ := ih (fun y hy => h y (by simp [hy]))
      refine ⟨(k, v) :: cps, ?_, by simp [hkeys]⟩
      simp only [loads_pairs, hv, hcps]
      rfl

/-- Lookup in the converted members of an object matches lookup in the raw
members: same domain, and each found value is the conversion of the raw one. -/
theorem loads_pairs_lookup (env : PyEnv) (dreg : DeserRegistry) :
    ∀ (pairs : List (String × JVal)) (cps : List (String × PyVal)),
      loads_pairs env dreg pairs = Except.ok cps → ∀ key,
      (dictGet pairs key = none → dictGet cps key = none) ∧
      (∀ jv, dictGet pairs key = some jv →
        ∃ pv, dictGet cps key = some pv ∧ loads_tree env dreg jv = Except.ok pv) := by
  intro pairs
  induction pairs with
  | nil =>
      intro cps h key
      have hc : ([] : List (String × PyVal)) = cps := by
        simpa [loads_pairs] using h
      subst hc
      exact ⟨fun _ => rfl, fun jv hjv => by simp [dictGet] at hjv⟩
  | cons kv rest ih =>
      obtain ⟨k, jv0⟩ := kv
      intro cps h key
      simp only [loads_pairs] at h
      rw [bind_ok_iff] at h
      obtain ⟨pv0, hpv0, h⟩ := h
      rw [bind_ok_iff] at h
      obtain ⟨cps', hcps', h⟩ := h
      have hc : (k, pv0) :: cps' = cps := by
        simpa using h
      subst hc
      by_cases hk : k = key
      · subst hk
        refine ⟨fun hn => by simp [dictGet] at hn, fun jv hjv => ?_⟩
        have : jv0 = jv := by simpa [dictGet] using hjv
        subst this
        exact ⟨pv0, by simp [dictGet], hpv0⟩
      · have := ih cps' hcps' key
        refine ⟨fun hn => ?_, fun jv hjv => ?_⟩
        · have hn' : dictGet rest key = none := by simpa [dictGet, hk] using hn
          simpa [dictGet, hk] using this.1 hn'
        · have hjv' : dictGet rest key = some jv := by simpa [dictGet, hk] using hjv
          obtain ⟨pv, hpv, hl⟩ := this.2 jv hjv'
          exact ⟨pv, by simpa [dictGet, hk] using hpv, hl⟩

/-- Assigning a fresh key appends the binding. -/
theorem insertKV_notmem {α : Type} (d : List (String × α)) (k : String) (v : α)
    (h : k ∉ d.map Prod.fst) : insertKV d k v = d ++ [(k, v)] := by
  induction d with
  | nil => rfl
  | cons kv rest ih =>
      simp only [List.map_cons, List.mem_cons] at h
      push_neg at h
      have hne : ¬ (kv.1 = k) := fun hh => h.1 hh.symm
      obtain ⟨k', v'⟩ := kv
      simp only [insertKV, if_neg hne, List.cons_append, List.cons.injEq, true_and]
      exact ih h.2

/-- Rebuilding a dict by successive assignment from pairwise-distinct keys
appends each binding in order. -/
theorem pyDictOfList_append (pairs : List (String × PyVal)) :
    ∀ acc : List (String × PyVal),
      ((acc ++ pairs).map Prod.fst).Nodup →
      List.foldl (fun d kv => insertKV d kv.1 kv.2) acc pairs = acc ++ pairs := by
  induction pairs with
  | nil => intro acc _; simp
  | cons kv rest ih =>
      intro acc h
      have hk : kv.1 ∉ acc.map Prod.fst := by
        rw [List.map_append, List.nodup_append] at h
        intro hmem
        exact h.2.2 hmem (by simp)
      rw [List.foldl_cons, insertKV_notmem acc kv.1 kv.2 hk]
      have hassoc : (acc ++ [(kv.1, kv.2)]) ++ rest = acc ++ kv :: rest := by simp
      rw [show ((kv.1, kv.2) : String × PyVal) = kv from rfl] at hassoc ⊢
      rw [ih (acc ++ [kv]) (by rw [hassoc]; exact h), hassoc]

/-- The Python dict built from member pairs with pairwise-distinct keys is
those pairs themselves. -/
theorem pyDictOfList_eq_self (pairs : List (String × PyVal))
    (h : (pairs.map Prod.fst).Nodup) : pyDictOfList pairs = pairs :=
  pyDictOfList_append pairs [] (by simpa using h)

/-- A parsed array converts to a list value (shape of the result). -/
theorem loads_jarr_shape (env : PyEnv) (dreg : DeserRegistry)
    (elems : List JVal) (v : PyVal)
    (h : loads_tree env dreg (JVal.jarr elems) = Except.ok v) :
    ∃ l, v = PyVal.vlist l := by
  simp only [loads_tree] at h
  rw [bind_ok_iff] at h
  obtain ⟨l, _, hl⟩ := h
  exact ⟨l, by simpa using hl.symm⟩

/-- C2 counterexample to "decode is total": an object whose `__class__` is a
string without a separator makes decoding raise `ValueError` — the
two-variable unpacking of `rsplit`'s one-element result is not among the
caught exceptions. -/
theorem C2_counterexample :
    loads_tree env0 [] (JVal.jobj [("__class__", JVal.jstr "nodots")]) =
      Except.error (PyErr.valueError
        "not enough values to unpack (expected 2, got 1)") := by
  simp only [loads_tree, loads_pairs]
  rfl

/-- C2 (amended): decode never raises on documents whose objects have
pairwise-distinct keys and a `__class__` member that is missing, stays
non-string after conversion, or is a string identifier folded into the caught
import/attribute failures; it is NOT total in general — a separator-less
identifier raises `ValueError`, a resolved identifier without `__value__`
raises `KeyError`, and a resolved identifier without a registered handler
raises `TypeError`. -/
theorem C2_decode_noraise_on_foreign (env : PyEnv) (dreg : DeserRegistry)
    (j : JVal) (h : Benign env j) :
    ∃ v, loads_tree env dreg j = Except.ok v := by
  induction h with
  | null => exact ⟨_, rfl⟩
  | bool b => exact ⟨_, rfl⟩
  | int n => exact ⟨_, rfl⟩
  | str s => exact ⟨_, rfl⟩
  | arr hmem ih =>
      obtain ⟨vs, hvs⟩ := loads_elems_ok env dreg _ ih
      refine ⟨PyVal.vlist vs, ?_⟩
      simp only [loads_tree, hvs]
      rfl
  | @obj pairs hnd hck hmem ih =>
      obtain ⟨cps, hcps, hkeys⟩ := loads_pairs_ok env dreg pairs ih
      have hdict : pyDictOfList cps = cps :=
        pyDictOfList_eq_self cps (by rw [hkeys]; exact hnd)
      have hlk := loads_pairs_lookup env dreg pairs cps hcps
      have hconv : ∃ v, convert_from env dreg cps = Except.ok v := by
        cases hc : dictGet pairs "__class__" with
        | none =>
            have hn := (hlk "__class__").1 hc
            exact ⟨_, by unfold convert_from; rw [hn]⟩
        | some jv =>
            obtain ⟨pv, hpv, hload⟩ := (hlk "__class__").2 jv hc
            rw [hc] at hck
            cases jv with
            | jnull =>
                have hx : Except.ok PyVal.vnull = Except.ok pv := hload
                injection hx with hx
                subst hx
                refine ⟨PyVal.vdict cps, ?_⟩
                unfold convert_from
                simp only [hpv]
            | jbool b =>
                have hx : Except.ok (PyVal.vbool b) = Except.ok pv := hload
                injection hx with hx
                subst hx
                refine ⟨PyVal.vdict cps, ?_⟩
                unfold convert_from
                simp only [hpv]
            | jint n =>
                have hx : Except.ok (PyVal.vint n) = Except.ok pv := hload
                injection hx with hx
                subst hx
                refine ⟨PyVal.vdict cps, ?_⟩
                unfold convert_from
                simp only [hpv]
            | jstr s =>
                have hx : Except.ok (PyVal.vstr s) = Except.ok pv := hload
                injection hx with hx
                subst hx
                have hres : resolveIdent env s = ResOutcome.unresolved := hck
                refine ⟨PyVal.vdict cps, ?_⟩
                unfold convert_from
                simp only [hpv, hres]
            | jarr elems =>
                obtain ⟨l, hl⟩ := loads_jarr_shape env dreg elems pv hload
                subst hl
                refine ⟨PyVal.vdict cps, ?_⟩
                unfold convert_from
                simp only [hpv]
            | jobj inner =>
                simp [ClassKeyOK] at hck
      obtain ⟨v, hv⟩ := hconv
      refine ⟨v, ?_⟩
      simp only [loads_tree, hcps]
      show convert_from env dreg (pyDictOfList cps) = Except.ok v
      rw [hdict]
      exact hv

/-- Witness for C2: a document mixing a foreign envelope-shaped object (an
unresolvable dotted identifier) with plain data decodes without raising. -/
theorem C2_witness :
    ∃ v, loads_tree env0 []
      (JVal.jobj
        [("__class__", JVal.jstr "no.Mod"),
         ("items", JVal.jarr [JVal.jobj [("name", JVal.jstr "A")]])]) =
      Except.ok v := by
  apply C2_decode_noraise_on_foreign
  apply Benign.obj
  · decide
  · show resolveIdent env0 "no.Mod" = ResOutcome.unresolved
    rfl
  · intro kv hkv
    simp only [List.mem_cons, List.not_mem_nil, or_false] at hkv
    rcases hkv with rfl | rfl
    · exact Benign.str "no.Mod"
    · refine Benign.arr ?_
      intro x hx
      simp only [List.mem_singleton] at hx
      subst hx
      apply Benign.obj
      · decide
      · show ClassKeyOK env0 none
        trivial
      · intro kv2 hkv2
        simp only [List.mem_singleton] at hkv2
        subst hkv2
        exact Benign.str "A"

/-- Successful element-wise conversion is preserved when each element's
converter is replaced by one that agrees on successes. -/
theorem exceptMapList_congr_ok {α β : Type} (f g : α → Except PyErr β)
    (xs : List α)
    (hfg : ∀ x ∈ xs, ∀ b, f x = Except.ok b → g x = Except.ok b) :
    ∀ ys, exceptMapList f xs = Except.ok ys → exceptMapList g xs = Except.ok ys := by
  induction xs with
  | nil => intro ys h; exact h
  | cons x xs ih =>
      intro ys h
      simp only [exceptMapList] at h ⊢
      rw [bind_ok_iff] at h
      obtain ⟨b, hb, h⟩ := h
      rw [bind_ok_iff] at h
      obtain ⟨bs, hbs, h⟩ := h
      rw [bind_ok_iff]
      refine ⟨b, hfg x (by simp) b hb, ?_⟩
      rw [bind_ok_iff]
      exact ⟨bs, ih (fun y hy => hfg y (by simp [hy])) bs hbs, h⟩

/-- The pairs analogue of `exceptMapList_congr_ok`. -/
theorem exceptMapPairs_congr_ok {α β : Type} (f g : α → Except PyErr β)
    (prs : List (String × α))
    (hfg : ∀ kv ∈ prs, ∀ b, f kv.2 = Except.ok b → g kv.2 = Except.ok b) :
    ∀ ys, exceptMapPairs f prs = Except.ok ys → exceptMapPairs g prs = Except.ok ys := by
  induction prs with
  | nil => intro ys h; exact h
  | cons kv rest ih =>
      obtain ⟨k, v⟩ := kv
      intro ys h
      simp only [exceptMapPairs] at h ⊢
      rw [bind_ok_iff] at h
      obtain ⟨b, hb, h⟩ := h
      rw [bind_ok_iff] at h
      obtain ⟨bs, hbs, h⟩ := h
      rw [bind_ok_iff]
      refine ⟨b, hfg (k, v) (by simp) b hb, ?_⟩
      rw [bind_ok_iff]
      exact ⟨bs, ih (fun y hy => hfg y (by simp [hy])) bs hbs, h⟩

/-- Fuel monotonicity of encoding: a conversion that succeeds under some
recursion budget succeeds, with the same result, under any larger budget. -/
theorem dumps_tree_mono (sreg : SerRegistry) :
    ∀ fuel fuel', fuel ≤ fuel' → ∀ v j,
      dumps_tree sreg fuel v = Except.ok j → dumps_tree sreg fuel' v = Except.ok j := by
  intro fuel
  induction fuel with
  | zero =>
      intro fuel' _ v j h
      cases v with
      | vnull => cases fuel' <;> exact h
      | vbool b => cases fuel' <;> exact h
      | vint n => cases fuel' <;> exact h
      | vstr s => cases fuel' <;> exact h
      | vlist elems => exact absurd h (by simp [dumps_tree])
      | vdict prs => exact absurd h (by simp [dumps_tree])
      | vobj cls rep fields =>
          exfalso
          simp only [dumps_tree] at h
          cases hreg : regGet sreg cls <;> simp only [hreg] at h <;> simp at h
  | succ fuel ih =>
      intro fuel' hle v j h
      cases fuel' with
      | zero => exact absurd hle (by omega)
      | succ fuel'' =>
          have hle' : fuel ≤ fuel'' := Nat.succ_le_succ_iff.mp hle
          cases v with
          | vnull => exact h
          | vbool b => exact h
          | vint n => exact h
          | vstr s => exact h
          | vlist elems =>
              simp only [dumps_tree] at h ⊢
              rw [bind_ok_iff] at h
              obtain ⟨js, hjs, hj⟩ := h
              rw [bind_ok_iff]
              exact ⟨js, exceptMapList_congr_ok _ _ elems
                (fun x _ b hb => ih fuel'' hle' x b hb) js hjs, hj⟩
          | vdict prs =>
              simp only [dumps_tree] at h ⊢
              rw [bind_ok_iff] at h
              obtain ⟨jps, hjps, hj⟩ := h
              rw [bind_ok_iff]
              exact ⟨jps, exceptMapPairs_congr_ok _ _ prs
                (fun kv _ b hb => ih fuel'' hle' kv.2 b hb) jps hjps, hj⟩
          | vobj cls rep fields =>
              simp only [dumps_tree] at h ⊢
              cases hreg : regGet sreg cls with
              | none => simp only [hreg] at h ⊢; simp at h
              | some handler =>
                  simp only [hreg] at h ⊢
                  rw [bind_ok_iff] at h
                  obtain ⟨p, hp, hj⟩ := h
                  rw [bind_ok_iff]
                  exact ⟨p, ih fuel'' hle' _ p hp, hj⟩

/-- If every element of a list encodes and decodes back to itself under some
budget, the whole list does under a common budget. -/
theorem roundtrip_elems (env : PyEnv) (sreg : SerRegistry) (dreg : DeserRegistry)
    (elems : List PyVal)
    (ih : ∀ x ∈ elems, ∃ fuel j, dumps_tree sreg fuel x = Except.ok j ∧
      loads_tree env dreg j = Except.ok x) :
    ∃ fuel js, exceptMapList (dumps_tree sreg fuel) elems = Except.ok js ∧
      loads_elems env dreg js = Except.ok elems := by
  induction elems with
  | nil => exact ⟨0, [], rfl, rfl⟩
  | cons x xs ihl =>
      obtain ⟨f1, j1, hd1, hl1⟩ := ih x (by simp)
      obtain ⟨f2, js2, hd2, hl2⟩ := ihl (fun y hy => ih y (by simp [hy]))
      refine ⟨max f1 f2, j1 :: js2, ?_, ?_⟩
      · simp only [exceptMapList]
        rw [bind_ok_iff]
        refine ⟨j1, dumps_tree_mono sreg f1 (max f1 f2) (Nat.le_max_left f1 f2) x j1 hd1, ?_⟩
        rw [bind_ok_iff]
        refine ⟨js2, ?_, rfl⟩
        exact exceptMapList_congr_ok _ _ xs
          (fun y _ b hb =>
            dumps_tree_mono sreg f2 (max f1 f2) (Nat.le_max_right f1 f2) y b hb) js2 hd2
      · simp only [loads_elems, hl1, hl2]
        rfl

/-- The pairs analogue of `roundtrip_elems`, keeping the keys. -/
theorem roundtrip_pairs (env : PyEnv) (sreg : SerRegistry) (dreg : DeserRegistry)
    (prs : List (String × PyVal))
    (ih : ∀ kv ∈ prs, ∃ fuel j, dumps_tree sreg fuel kv.2 = Except.ok j ∧
      loads_tree env dreg j = Except.ok kv.2) :
    ∃ fuel jps, exceptMapPairs (dumps_tree sreg fuel) prs = Except.ok jps ∧
      loads_pairs env dreg jps = Except.ok prs := by
  induction prs with
  | nil => exact ⟨0, [], rfl, rfl⟩
  | cons kv rest ihl =>
      obtain ⟨k, v⟩ := kv
      obtain ⟨f1, j1, hd1, hl1⟩ := ih (k, v) (by simp)
      obtain ⟨f2, jps2, hd2, hl2⟩ := ihl (fun y hy => ih y (by simp [hy]))
      refine ⟨max f1 f2, (k, j1) :: jps2, ?_, ?_⟩
      · simp only [exceptMapPairs]
        rw [bind_ok_iff]
        refine ⟨j1, dumps_tree_mono sreg f1 (max f1 f2) (Nat.le_max_left f1 f2) v j1 hd1, ?_⟩
        rw [bind_ok_iff]
        refine ⟨jps2, ?_, rfl⟩
        exact exceptMapPairs_congr_ok _ _ rest
          (fun y _ b hb =>
            dumps_tree_mono sreg f2 (max f1 f2) (Nat.le_max_right f1 f2) y.2 b hb) jps2 hd2
      · simp only [loads_pairs, hl1, hl2]
        rfl

/-- C6: for a value whose registered types have mutually inverse encode and
decode functions (and resolvable identifiers), decoding the encoding gives
back the value itself — including registered instances nested anywhere in
payloads, lists and dicts. -/
theorem C6_roundtrip (env : PyEnv) (sreg : SerRegistry) (dreg : DeserRegistry)
    (v : PyVal) (h : Safe env sreg dreg v) :
    ∃ fuel j, dumps_tree sreg fuel v = Except.ok j ∧
      loads_tree env dreg j = Except.ok v := by
  induction h with
  | null => exact ⟨0, JVal.jnull, rfl, rfl⟩
  | bool b => exact ⟨0, JVal.jbool b, rfl, rfl⟩
  | int n => exact ⟨0, JVal.jint n, rfl, rfl⟩
  | str s => exact ⟨0, JVal.jstr s, rfl, rfl⟩
  | list hmem ih =>
      obtain ⟨fuel, js, hd, hl⟩ := roundtrip_elems env sreg dreg _ ih
      refine ⟨fuel + 1, JVal.jarr js, ?_, ?_⟩
      · simp only [dumps_tree, hd]
        rfl
      · simp only [loads_tree, hl]
        rfl
  | @dict prs hnd hcls hmem ih =>
      obtain ⟨fuel, jps, hd, hl⟩ := roundtrip_pairs env sreg dreg prs ih
      refine ⟨fuel + 1, JVal.jobj jps, ?_, ?_⟩
      · simp only [dumps_tree, hd]
        rfl
      · simp only [loads_tree, hl]
        show convert_from env dreg (pyDictOfList prs) = Except.ok (PyVal.vdict prs)
        rw [pyDictOfList_eq_self prs hnd]
        unfold convert_from
        rw [hcls]
  | @obj cls rep fields handler decoder hs hd hres hsafe hinv ih =>
      obtain ⟨fuel, jp, hdp, hlp⟩ := ih
      refine ⟨fuel + 1,
        JVal.jobj [("__class__", JVal.jstr (fullName cls)), ("__value__", jp)],
        ?_, ?_⟩
      · simp only [dumps_tree, hs, hdp]
        rfl
      · simp only [loads_tree, loads_pairs, hlp]
        show convert_from env dreg (pyDictOfList
            [("__class__", PyVal.vstr (fullName cls)),
             ("__value__", handler (PyVal.vobj cls rep fields))]) =
          Except.ok (PyVal.vobj cls rep fields)
        have hpd : pyDictOfList
            [("__class__", PyVal.vstr (fullName cls)),
             ("__value__", handler (PyVal.vobj cls rep fields))] =
            [("__class__", PyVal.vstr (fullName cls)),
             ("__value__", handler (PyVal.vobj cls rep fields))] := rfl
        rw [hpd]
        unfold convert_from
        simp [dictGet, hres, deserialize, hd, hinv]

/-- Witness for C6: the registered `Point(1, 2)` instance encodes and decodes
back to itself. -/
theorem C6_witness :
    ∃ fuel j, dumps_tree sregPoint fuel point12 = Except.ok j ∧
      loads_tree env0 dregPoint j = Except.ok point12 := by
  apply C6_roundtrip
  refine Safe.obj rfl rfl rfl ?_ rfl
  show Safe env0 sregPoint dregPoint
    (PyVal.vdict [("y", PyVal.vint 2), ("x", PyVal.vint 1)])
  refine Safe.dict (by decide) rfl ?_
  intro kv hkv
  simp only [List.mem_cons, List.not_mem_nil, or_false] at hkv
  rcases hkv with rfl | rfl
  · exact Safe.int 2
  · exact Safe.int 1
